import Mathlib

/-!
Verification of the practice-timer core: the `useTimer` state machine, the
`formatTime` label formatter, the `TimerDisplay` progress-snap effect and the
`getStatusText` derivation, shallowly embedded from the React Native source.
-/

namespace PracticeTimer

/-- The observable state of the `useTimer` hook: the four `useState` cells
`seconds`, `isRunning`, `isCountingDown`, `isAutoRestart`.  `seconds` is a
JavaScript number that the code only ever sets to 0, increments, or
decrements with a clamp at 0; it is embedded as `Int` so that
non-negativity is a property to prove, not a typing artifact. -/
structure TimerState where
  seconds : Int
  isRunning : Bool
  isCountingDown : Bool
  isAutoRestart : Bool
deriving DecidableEq, Repr

/-- The hook's initial state: `useState(0)`, `useState(false)` three times. -/
def initialState : TimerState :=
  { seconds := 0, isRunning := false, isCountingDown := false, isAutoRestart := false }

/-- `start`: `if (!isRunning && !isCountingDown) setIsRunning(true)`. -/
def start (s : TimerState) : TimerState :=
  if !s.isRunning && !s.isCountingDown then { s with isRunning := true } else s

/-- `stop`: `if (isRunning) { setIsRunning(false); if (seconds > 0) setIsCountingDown(true) }`. -/
def stop (s : TimerState) : TimerState :=
  if s.isRunning then
    if s.seconds > 0 then
      { s with isRunning := false, isCountingDown := true }
    else
      { s with isRunning := false }
  else s

/-- `reset`: `setIsRunning(false); setIsCountingDown(false); setSeconds(0)`.
`isAutoRestart` is not touched. -/
def reset (s : TimerState) : TimerState :=
  { s with seconds := 0, isRunning := false, isCountingDown := false }

/-- `toggleAutoRestart`: `setIsAutoRestart((prev) => !prev)`. -/
def toggleAutoRestart (s : TimerState) : TimerState :=
  { s with isAutoRestart := !s.isAutoRestart }

/-- One firing of whichever interval the `useEffect` has installed.
While `isRunning && !isCountingDown` the interval runs
`setSeconds((prev) => prev + 1)`; while `isCountingDown` it runs
`setSeconds((prev) => { if (prev <= 0) { setIsCountingDown(false);
if (isAutoRestart) setIsRunning(true); return 0 } return prev - 1 })`;
otherwise no interval is installed and a tick changes nothing. -/
def tick (s : TimerState) : TimerState :=
  if s.isRunning && !s.isCountingDown then
    { s with seconds := s.seconds + 1 }
  else if s.isCountingDown then
    if s.seconds ≤ 0 then
      { s with seconds := 0, isCountingDown := false,
               isRunning := if s.isAutoRestart then true else s.isRunning }
    else
      { s with seconds := s.seconds - 1 }
  else s

/-- The `useEffect` installs an interval exactly when
`isRunning && !isCountingDown` (the incrementing driver) or `isCountingDown`
(the decrementing driver). -/
def driverActive (s : TimerState) : Bool :=
  (s.isRunning && !s.isCountingDown) || s.isCountingDown

/-- An event the hook can process: one of the four commands, or a firing of
the active interval. -/
inductive Cmd where
  | start
  | stop
  | reset
  | toggleAutoRestart
  | tick
deriving DecidableEq, Repr

/-- Apply one event to the state. -/
def step (s : TimerState) : Cmd → TimerState
  | Cmd.start => start s
  | Cmd.stop => stop s
  | Cmd.reset => reset s
  | Cmd.toggleAutoRestart => toggleAutoRestart s
  | Cmd.tick => tick s

/-- The state after an event sequence, from the initial state. -/
def run (cs : List Cmd) : TimerState :=
  cs.foldl step initialState

/-- `getStatusText` from `TimerDisplay`: CountingDown, then Running, then
Ready at 0, else Stopped. -/
def getStatusText (s : TimerState) : String :=
  if s.isCountingDown then "Counting Down"
  else if s.isRunning then "Running"
  else if s.seconds = 0 then "Ready"
  else "Stopped"

/-- `padStart` of JavaScript on a string, with a one-character pad: prepend
copies of the pad character up to the target length. -/
def padStart (str : String) (targetLen : Nat) (padChar : Char) : String :=
  String.mk (List.replicate (targetLen - str.length) padChar) ++ str

/-- `formatTime` from the source: minutes `floor(total/60)` and seconds
`total % 60`, each rendered in decimal and padded to two characters with
`'0'`, joined by a colon.  The input is the hook's `seconds`, which is
non-negative. -/
def formatTime (totalSeconds : Nat) : String :=
  let mins := totalSeconds / 60
  let secs := totalSeconds % 60
  padStart (toString mins) 2 '0' ++ ":" ++ padStart (toString secs) 2 '0'

/-- One run of the `TimerDisplay` progress `useEffect`, as a pure function of
its inputs (`seconds`, `isCountingDown`), the ref cell `prevMinuteRef` and the
value `a` that `animatedProgress` holds when the effect fires.  `easeStart` is
the value `animatedProgress` holds when `withTiming` begins easing toward
`easeTarget` (the minute-rollover snap sets it to 0 with no transition first).
Angles are fractions of the full circle: the source's `targetProgress` is this
fraction times the fixed positive constant `CIRCUMFERENCE`. -/
structure DisplayUpdate where
  easeStart : ℚ
  easeTarget : ℚ
  newPrevMinute : Nat
deriving DecidableEq, Repr

/-- The effect body: `if (currentMinute !== prevMinuteRef.current &&
!isCountingDown) { animatedProgress.value = 0; prevMinuteRef.current =
currentMinute }` and then always `animatedProgress.value =
withTiming(targetProgress, ...)`. -/
def progressUpdate (seconds : Nat) (isCountingDown : Bool) (prevMinute : Nat)
    (a : ℚ) : DisplayUpdate :=
  let currentMinute := seconds / 60
  let secondsInMinute := seconds % 60
  let targetProgress : ℚ := (secondsInMinute : ℚ) / 60
  if currentMinute != prevMinute && !isCountingDown then
    { easeStart := 0, easeTarget := targetProgress, newPrevMinute := currentMinute }
  else
    { easeStart := a, easeTarget := targetProgress, newPrevMinute := prevMinute }

/-! ## Helper lemmas about single ticks -/

/-- A tick of the incrementing driver. -/
lemma tick_running (s : TimerState) (hr : s.isRunning = true)
    (hcd : s.isCountingDown = false) :
    tick s = { s with seconds := s.seconds + 1 } := by
  unfold tick
  rw [hr, hcd]
  simp

/-- A countdown tick with positive count decrements. -/
lemma tick_countdown_pos (s : TimerState) (hcd : s.isCountingDown = true)
    (hpos : 0 < s.seconds) :
    tick s = { s with seconds := s.seconds - 1 } := by
  unfold tick
  rw [hcd]
  simp [not_le.mpr hpos]

/-- A countdown tick at count 0 leaves the countdown, clamping at 0 and
starting the incrementing driver exactly when `isAutoRestart`. -/
lemma tick_countdown_zero (s : TimerState) (hcd : s.isCountingDown = true)
    (hz : s.seconds ≤ 0) :
    tick s = { s with seconds := 0, isCountingDown := false,
                      isRunning := if s.isAutoRestart then true else s.isRunning } := by
  unfold tick
  rw [hcd]
  simp [hz]

/-- With no driver active a tick changes nothing. -/
lemma tick_idle (s : TimerState) (hr : s.isRunning = false)
    (hcd : s.isCountingDown = false) :
    tick s = s := by
  unfold tick
  rw [hr, hcd]
  simp

/-- `k` countdown ticks from count `k` reach count 0 while staying in the
countdown (the exit only happens on the tick after that). -/
lemma countdown_iterate :
    ∀ (k : Nat) (s : TimerState), s.isCountingDown = true → s.seconds = (k : Int) →
      (tick^[k]) s = { s with seconds := 0 } := by
  intro k
  induction k with
  | zero =>
    intro s hcd hs
    simp only [Function.iterate_zero, id]
    cases s
    simp_all
  | succ n ih =>
    intro s hcd hs
    have hpos : 0 < s.seconds := by rw [hs]; exact_mod_cast Nat.succ_pos n
    rw [Function.iterate_succ_apply, tick_countdown_pos s hcd hpos]
    have := ih { s with seconds := s.seconds - 1 } hcd (by simp [hs])
    simpa using this

/-! ## The claims -/

/-- C1 (amended): from Running with `count = N > 0`, `stop()` enters
CountingDown; after exactly `N` subsequent countdown ticks the count is 0 but
the mode is still CountingDown, and only the `N + 1`-st tick leaves
CountingDown, with the count staying 0. -/
theorem stop_then_countdown_duration (s : TimerState) (N : Nat)
    (hr : s.isRunning = true) (_hcd : s.isCountingDown = false)
    (hsec : s.seconds = (N : Int)) (hpos : 0 < N) :
    (stop s).isCountingDown = true ∧
    ((tick^[N]) (stop s)).seconds = 0 ∧
    ((tick^[N]) (stop s)).isCountingDown = true ∧
    ((tick^[N + 1]) (stop s)).isCountingDown = false ∧
    ((tick^[N + 1]) (stop s)).seconds = 0 := by
  have hpos' : (0 : Int) < s.seconds := by rw [hsec]; exact_mod_cast hpos
  have hstop : stop s = { s with isRunning := false, isCountingDown := true } := by
    unfold stop
    rw [hr]
    simp [hpos']
  have hiter : (tick^[N]) (stop s) =
      { s with isRunning := false, isCountingDown := true, seconds := 0 } := by
    rw [hstop]
    exact countdown_iterate N _ rfl hsec
  have hnext : (tick^[N + 1]) (stop s) =
      tick { s with isRunning := false, isCountingDown := true, seconds := 0 } := by
    rw [Function.iterate_succ_apply', hiter]
  have hlast1 :
      (tick { s with isRunning := false, isCountingDown := true, seconds := 0 }).isCountingDown = false := by
    rw [tick_countdown_zero _ rfl (by simp)]
  have hlast2 :
      (tick { s with isRunning := false, isCountingDown := true, seconds := 0 }).seconds = 0 := by
    rw [tick_countdown_zero _ rfl (by simp)]
  exact ⟨by rw [hstop], by rw [hiter], by rw [hiter],
    by rw [hnext]; exact hlast1, by rw [hnext]; exact hlast2⟩

/-- Witness for C1 at the Running state with count 2. -/
theorem stop_then_countdown_duration_witness :
    (stop (⟨2, true, false, false⟩ : TimerState)).isCountingDown = true ∧
    ((tick^[2]) (stop (⟨2, true, false, false⟩ : TimerState))).seconds = 0 ∧
    ((tick^[2]) (stop (⟨2, true, false, false⟩ : TimerState))).isCountingDown = true ∧
    ((tick^[2 + 1]) (stop (⟨2, true, false, false⟩ : TimerState))).isCountingDown = false ∧
    ((tick^[2 + 1]) (stop (⟨2, true, false, false⟩ : TimerState))).seconds = 0 :=
  stop_then_countdown_duration _ 2 rfl rfl rfl (by decide)

/-- C1 as stated is false: with `N = 1`, reached by `start` then one tick, one
countdown tick after `stop()` brings the count to 0 but the mode is still
CountingDown. -/
theorem stop_then_countdown_claim_refuted :
    (run [Cmd.start, Cmd.tick]).isRunning = true ∧
    (run [Cmd.start, Cmd.tick]).isCountingDown = false ∧
    (run [Cmd.start, Cmd.tick]).seconds = 1 ∧
    (stop (run [Cmd.start, Cmd.tick])).isCountingDown = true ∧
    ((tick^[1]) (stop (run [Cmd.start, Cmd.tick]))).seconds = 0 ∧
    ¬ ((tick^[1]) (stop (run [Cmd.start, Cmd.tick]))).isCountingDown = false := by
  decide

/-- C2 (amended): with `autoRestart = true`, the tick fired at count 0 during
CountingDown leaves the count at 0 and switches the mode to Running — one tick
elapses with the count staying 0 — and the tick after that brings the count
to 1, still Running. -/
theorem autoRestart_transition_tick (s : TimerState)
    (hcd : s.isCountingDown = true) (hz : s.seconds = 0)
    (har : s.isAutoRestart = true) :
    (tick s).isCountingDown = false ∧ (tick s).isRunning = true ∧
    (tick s).seconds = 0 ∧
    (tick (tick s)).seconds = 1 ∧ (tick (tick s)).isRunning = true ∧
    (tick (tick s)).isCountingDown = false := by
  have h1 : tick s = { s with seconds := 0, isCountingDown := false,
                              isRunning := true } := by
    rw [tick_countdown_zero s hcd (le_of_eq hz), har]
    simp
  have h2 : tick (tick s) = { s with seconds := 1, isCountingDown := false,
                                     isRunning := true } := by
    rw [h1, tick_running _ rfl rfl]
    norm_num
  rw [h2, h1]
  exact ⟨rfl, rfl, rfl, rfl, rfl, rfl⟩

/-- Witness for C2 at the CountingDown state with count 0 and autoRestart on. -/
theorem autoRestart_transition_tick_witness :
    (tick (⟨0, false, true, true⟩ : TimerState)).isCountingDown = false ∧
    (tick (⟨0, false, true, true⟩ : TimerState)).isRunning = true ∧
    (tick (⟨0, false, true, true⟩ : TimerState)).seconds = 0 ∧
    (tick (tick (⟨0, false, true, true⟩ : TimerState))).seconds = 1 ∧
    (tick (tick (⟨0, false, true, true⟩ : TimerState))).isRunning = true ∧
    (tick (tick (⟨0, false, true, true⟩ : TimerState))).isCountingDown = false :=
  autoRestart_transition_tick _ rfl rfl rfl

/-- C2 as stated is false: in the run `toggleAutoRestart; start; tick; stop;
tick` the countdown has just reached 0 with autoRestart on, yet the very next
tick leaves the count at 0 (not 1) while switching to Running. -/
theorem autoRestart_no_lost_tick_refuted :
    (run [Cmd.toggleAutoRestart, Cmd.start, Cmd.tick, Cmd.stop, Cmd.tick]).isCountingDown = true ∧
    (run [Cmd.toggleAutoRestart, Cmd.start, Cmd.tick, Cmd.stop, Cmd.tick]).seconds = 0 ∧
    (run [Cmd.toggleAutoRestart, Cmd.start, Cmd.tick, Cmd.stop, Cmd.tick]).isAutoRestart = true ∧
    (tick (run [Cmd.toggleAutoRestart, Cmd.start, Cmd.tick, Cmd.stop, Cmd.tick])).isRunning = true ∧
    ¬ (tick (run [Cmd.toggleAutoRestart, Cmd.start, Cmd.tick, Cmd.stop, Cmd.tick])).seconds = 1 := by
  decide

/-- C3 (amended): with `autoRestart = false`, the tick fired at count 0 during
CountingDown leaves an inactive state (count 0, not Running, not CountingDown,
no driver) whose status text is "Ready", and that state is unchanged by any
further ticks; `start()` exits it into Running. -/
theorem countdown_complete_stops (s : TimerState)
    (hcd : s.isCountingDown = true) (hr : s.isRunning = false)
    (hz : s.seconds = 0) (har : s.isAutoRestart = false) :
    (tick s).isRunning = false ∧ (tick s).isCountingDown = false ∧
    (tick s).seconds = 0 ∧
    getStatusText (tick s) = "Ready" ∧
    driverActive (tick s) = false ∧
    (∀ k : Nat, (tick^[k]) (tick s) = tick s) ∧
    (start (tick s)).isRunning = true := by
  have h1 : tick s = { s with seconds := 0, isCountingDown := false,
                              isRunning := false } := by
    rw [tick_countdown_zero s hcd (le_of_eq hz), har, hr]
    simp
  rw [h1]
  refine ⟨rfl, rfl, rfl, rfl, rfl, ?_, ?_⟩
  · intro k
    exact Function.iterate_fixed (tick_idle _ rfl rfl) k
  · rfl

/-- Witness for C3 at the CountingDown state with count 0 and autoRestart off. -/
theorem countdown_complete_stops_witness :
    (tick (⟨0, false, true, false⟩ : TimerState)).isRunning = false ∧
    (tick (⟨0, false, true, false⟩ : TimerState)).isCountingDown = false ∧
    (tick (⟨0, false, true, false⟩ : TimerState)).seconds = 0 ∧
    getStatusText (tick (⟨0, false, true, false⟩ : TimerState)) = "Ready" ∧
    driverActive (tick (⟨0, false, true, false⟩ : TimerState)) = false ∧
    (∀ k : Nat, (tick^[k]) (tick (⟨0, false, true, false⟩ : TimerState)) =
        tick (⟨0, false, true, false⟩ : TimerState)) ∧
    (start (tick (⟨0, false, true, false⟩ : TimerState))).isRunning = true :=
  countdown_complete_stops _ rfl rfl rfl rfl

/-- C3 as stated is false: a countdown that completes with autoRestart off
ends in a state whose status text is "Ready", not "Stopped". -/
theorem countdown_complete_stopped_text_refuted :
    (run [Cmd.start, Cmd.tick, Cmd.stop, Cmd.tick, Cmd.tick]).isRunning = false ∧
    (run [Cmd.start, Cmd.tick, Cmd.stop, Cmd.tick, Cmd.tick]).isCountingDown = false ∧
    (run [Cmd.start, Cmd.tick, Cmd.stop, Cmd.tick, Cmd.tick]).seconds = 0 ∧
    getStatusText (run [Cmd.start, Cmd.tick, Cmd.stop, Cmd.tick, Cmd.tick]) = "Ready" ∧
    ¬ getStatusText (run [Cmd.start, Cmd.tick, Cmd.stop, Cmd.tick, Cmd.tick]) = "Stopped" := by
  decide

/-- One event keeps the count non-negative. -/
lemma step_nonneg (s : TimerState) (c : Cmd) (h : 0 ≤ s.seconds) :
    0 ≤ (step s c).seconds := by
  cases c with
  | start =>
    show 0 ≤ (start s).seconds
    unfold start
    split <;> exact h
  | stop =>
    show 0 ≤ (stop s).seconds
    unfold stop
    split
    · split <;> exact h
    · exact h
  | reset =>
    show 0 ≤ (reset s).seconds
    exact le_refl 0
  | toggleAutoRestart =>
    show 0 ≤ (toggleAutoRestart s).seconds
    exact h
  | tick =>
    show 0 ≤ (tick s).seconds
    unfold tick
    split
    · show 0 ≤ s.seconds + 1
      omega
    · split
      · split
        · exact le_refl 0
        · show 0 ≤ s.seconds - 1
          omega
      · exact h

/-- C4: along every sequence of commands and ticks from the initial state the
count stays a non-negative integer; in particular a countdown tick never takes
it below 0. -/
theorem count_nonneg (cs : List Cmd) : 0 ≤ (run cs).seconds := by
  have main : ∀ (l : List Cmd) (s : TimerState), 0 ≤ s.seconds →
      0 ≤ (l.foldl step s).seconds := by
    intro l
    induction l with
    | nil => intro s h; simpa using h
    | cons c rest ih => intro s h; exact ih (step s c) (step_nonneg s c h)
  exact main cs initialState (by decide)

/-- C5 (amended): a tick of the incrementing driver (Running, not
CountingDown) raises the count by exactly 1; a CountingDown tick with positive
count lowers it by exactly 1; the CountingDown tick at count 0 leaves the
count at 0 and exits CountingDown; and throughout CountingDown the count
never goes below 0 nor increases. -/
theorem tick_count_change (s : TimerState) :
    (s.isRunning = true → s.isCountingDown = false →
      (tick s).seconds = s.seconds + 1) ∧
    (s.isCountingDown = true → 0 < s.seconds →
      (tick s).seconds = s.seconds - 1) ∧
    (s.isCountingDown = true → s.seconds ≤ 0 →
      (tick s).seconds = 0 ∧ (tick s).isCountingDown = false) ∧
    (s.isCountingDown = true → 0 ≤ s.seconds →
      0 ≤ (tick s).seconds ∧ (tick s).seconds ≤ s.seconds) := by
  refine ⟨?_, ?_, ?_, ?_⟩
  · intro hr hcd
    rw [tick_running s hr hcd]
  · intro hcd hpos
    rw [tick_countdown_pos s hcd hpos]
  · intro hcd hz
    rw [tick_countdown_zero s hcd hz]
    exact ⟨rfl, rfl⟩
  · intro hcd hnn
    rcases lt_or_le 0 s.seconds with hpos | hz
    · rw [tick_countdown_pos s hcd hpos]
      constructor
      · show 0 ≤ s.seconds - 1
        omega
      · show s.seconds - 1 ≤ s.seconds
        omega
    · rw [tick_countdown_zero s hcd hz]
      exact ⟨le_refl 0, hnn⟩

/-- C5 as stated is false: in the reachable CountingDown state with count 0
(run `start; tick; stop; tick`) a further tick does not strictly decrease the
count. -/
theorem countingdown_strict_decrease_refuted :
    (run [Cmd.start, Cmd.tick, Cmd.stop, Cmd.tick]).isCountingDown = true ∧
    (run [Cmd.start, Cmd.tick, Cmd.stop, Cmd.tick]).seconds = 0 ∧
    ¬ (tick (run [Cmd.start, Cmd.tick, Cmd.stop, Cmd.tick])).seconds <
        (run [Cmd.start, Cmd.tick, Cmd.stop, Cmd.tick]).seconds := by
  decide

/-- C6: on every update, the animated value is snapped to 0 before easing and
the stored minute is updated exactly when the current minute differs from the
stored one and the timer is not counting down; while counting down the snap is
suppressed on every update; the ease target is always `(count mod 60) / 60` of
the circle. -/
theorem progressUpdate_spec (seconds : Nat) (cd : Bool) (pm : Nat) (a : ℚ) :
    (progressUpdate seconds cd pm a).easeTarget = ((seconds % 60 : Nat) : ℚ) / 60 ∧
    (cd = true →
      (progressUpdate seconds cd pm a).easeStart = a ∧
      (progressUpdate seconds cd pm a).newPrevMinute = pm) ∧
    (cd = false → seconds / 60 ≠ pm →
      (progressUpdate seconds cd pm a).easeStart = 0 ∧
      (progressUpdate seconds cd pm a).newPrevMinute = seconds / 60) ∧
    (seconds / 60 = pm →
      (progressUpdate seconds cd pm a).easeStart = a ∧
      (progressUpdate seconds cd pm a).newPrevMinute = pm) := by
  simp only [progressUpdate]
  refine ⟨?_, ?_, ?_, ?_⟩
  · split <;> rfl
  · intro hcd
    subst hcd
    simp
  · intro hcd hne
    subst hcd
    simp [hne]
  · intro heq
    simp [heq]

/-- C7: the status text is derived purely from the counting-down flag, the
running flag and the count, in that order of precedence. -/
theorem getStatusText_cases (s : TimerState) :
    (s.isCountingDown = true → getStatusText s = "Counting Down") ∧
    (s.isCountingDown = false → s.isRunning = true → getStatusText s = "Running") ∧
    (s.isCountingDown = false → s.isRunning = false → s.seconds = 0 →
      getStatusText s = "Ready") ∧
    (s.isCountingDown = false → s.isRunning = false → s.seconds ≠ 0 →
      getStatusText s = "Stopped") := by
  unfold getStatusText
  refine ⟨?_, ?_, ?_, ?_⟩
  · intro hcd
    simp [hcd]
  · intro hcd hr
    simp [hcd, hr]
  · intro hcd hr hz
    simp [hcd, hr, hz]
  · intro hcd hr hz
    simp [hcd, hr, hz]

/-- C8: `reset()` zeroes the count, clears both mode flags (so no driver is
active and the status text is "Ready") and leaves `autoRestart` unchanged,
from any state. -/
theorem reset_spec (s : TimerState) :
    (reset s).seconds = 0 ∧
    (reset s).isRunning = false ∧
    (reset s).isCountingDown = false ∧
    (reset s).isAutoRestart = s.isAutoRestart ∧
    driverActive (reset s) = false ∧
    getStatusText (reset s) = "Ready" := by
  refine ⟨rfl, rfl, rfl, rfl, rfl, ?_⟩
  simp [getStatusText, reset]

/-- Every decimal rendering of a number below 60 has at most two characters. -/
lemma repr_len_le_two (m : Nat) (hm : m < 60) : (toString m).length ≤ 2 := by
  have h : ∀ i : Fin 60, (toString i.val).length ≤ 2 := by decide
  exact h ⟨m, hm⟩

/-- The length of a two-target `padStart`. -/
lemma padStart_length (str : String) (c : Char) :
    (padStart str 2 c).length = (2 - str.length) + str.length := by
  simp [padStart, String.length_append]

/-- C9: `formatTime` renders `floor(count/60)` and `count mod 60` in decimal,
each zero-padded to at least two characters, joined by a colon; minutes are
not wrapped at 60, the seconds field lies in `[0, 59]` and is exactly two
characters; `formatTime 0 = "00:00"`, `formatTime 65 = "01:05"`,
`formatTime 3600 = "60:00"`. -/
theorem formatTime_spec :
    (∀ n : Nat,
      formatTime n =
        padStart (toString (n / 60)) 2 '0' ++ ":" ++ padStart (toString (n % 60)) 2 '0' ∧
      n % 60 < 60 ∧
      2 ≤ (padStart (toString (n / 60)) 2 '0').length ∧
      (padStart (toString (n % 60)) 2 '0').length = 2) ∧
    formatTime 0 = "00:00" ∧ formatTime 65 = "01:05" ∧ formatTime 3600 = "60:00" := by
  refine ⟨?_, by decide, by decide, by decide⟩
  intro n
  have hmod : n % 60 < 60 := Nat.mod_lt n (by norm_num)
  refine ⟨rfl, hmod, ?_, ?_⟩
  · rw [padStart_length]
    omega
  · rw [padStart_length]
    have h := repr_len_le_two (n % 60) hmod
    omega

/-- C10 (amended): any state with count 0 and both mode flags cleared is
observably the Ready state as far as the display goes — status text "Ready",
never "Stopped", count and both flags agreeing with the initial state, no
driver active — though its `autoRestart` flag may differ from the initial
state's. -/
theorem ready_state_observable (s : TimerState)
    (hz : s.seconds = 0) (hr : s.isRunning = false) (hcd : s.isCountingDown = false) :
    getStatusText s = "Ready" ∧
    getStatusText s ≠ "Stopped" ∧
    s.seconds = initialState.seconds ∧
    s.isRunning = initialState.isRunning ∧
    s.isCountingDown = initialState.isCountingDown ∧
    driverActive s = false := by
  have h : getStatusText s = "Ready" := by
    simp [getStatusText, hz, hr, hcd]
  refine ⟨h, ?_, hz, hr, hcd, ?_⟩
  · rw [h]
    decide
  · simp [driverActive, hr, hcd]

/-- Witness for C10 at the zero state whose autoRestart flag is on. -/
theorem ready_state_observable_witness :
    getStatusText (⟨0, false, false, true⟩ : TimerState) = "Ready" ∧
    getStatusText (⟨0, false, false, true⟩ : TimerState) ≠ "Stopped" ∧
    (⟨0, false, false, true⟩ : TimerState).seconds = initialState.seconds ∧
    (⟨0, false, false, true⟩ : TimerState).isRunning = initialState.isRunning ∧
    (⟨0, false, false, true⟩ : TimerState).isCountingDown = initialState.isCountingDown ∧
    driverActive (⟨0, false, false, true⟩ : TimerState) = false :=
  ready_state_observable _ rfl rfl rfl

/-- C10 as stated is false: toggling autoRestart and nothing else ends an
execution with count 0 and both flags cleared, yet the observable state
(which includes the autoRestart flag) differs from the initial Ready state. -/
theorem ready_equals_initial_refuted :
    (run [Cmd.toggleAutoRestart]).seconds = 0 ∧
    (run [Cmd.toggleAutoRestart]).isRunning = false ∧
    (run [Cmd.toggleAutoRestart]).isCountingDown = false ∧
    ¬ run [Cmd.toggleAutoRestart] = initialState := by
  decide

end PracticeTimer
